import Mathlib

/-!
Formal model of the voice-session transcript relay and conversation-pairing
logic of the AI-Voice-Agent travel-assistant repository.

The development shallowly embeds:
- the duck-typed speech-event payloads consumed by `VoiceAssistant._extract_text`
  and `VoiceAssistant._extract_language` (both the copy in `src/livekit/agent.py`
  and the copy in `src/AI_travel/backend/livekit_agent.py`),
- the per-room mutable `transcript_context` dictionary and the update performed
  by `VoiceAssistant._send_transcript` and `_queue_transcript`
  (`src/livekit/agent.py`),
- the conversation table operations `save_conversation` and
  `get_conversation_history` (`src/AI_travel/Database/database.py`).

Python values are modelled by the inductive `PyVal`; Python `None` is
`PyVal.none`, attribute access with a default (`getattr(x, n, None)`) is
`pyGetattr`, truthiness is `pyTruthy`, and `str.strip()` is `pyStrip`.
Fallible Python code is embedded in `Except Unit`: `Except.error ()` marks an
uncaught exception. JSON documents exchanged with the backend are modelled by
`JValue` (the fragment relevant to the code: null, strings, objects, arrays).
The SQLite `conversations` table is a list of rows; `ORDER BY created_at ASC`
over a table scan is modelled as a stable insertion sort on `created_at`.
-/

/-! ## Python value model -/

mutual
/-- Model of the Python values that flow through the speech-event extraction
code: `None`, strings, integers, lists (also standing for tuples),
dictionaries, and generic objects carrying named attributes together with
their `str()` rendering. -/
inductive PyVal where
  | none : PyVal
  | str (s : String) : PyVal
  | int (n : Int) : PyVal
  | list (xs : PyList) : PyVal
  | dict (es : PyDict) : PyVal
  | obj (attrs : PyDict) (srepr : String) : PyVal
  deriving DecidableEq
/-- Lists of Python values (spine made explicit so that mutual structural
recursion over `PyVal` is available). -/
inductive PyList where
  | nil : PyList
  | cons (hd : PyVal) (tl : PyList) : PyList
  deriving DecidableEq
/-- Association lists of string keys to Python values; used both for Python
dictionaries and for object attribute tables. -/
inductive PyDict where
  | nil : PyDict
  | cons (key : String) (val : PyVal) (tl : PyDict) : PyDict
  deriving DecidableEq
end

/-- First binding of a key in a `PyDict` (Python dictionaries have unique keys,
so first-match lookup is faithful). -/
def pyDictLookup : PyDict → String → Option PyVal
  | PyDict.nil, _ => Option.none
  | PyDict.cons k v rest, key => if k = key then some v else pyDictLookup rest key

/-- Python truthiness for the modelled value fragment. -/
def pyTruthy : PyVal → Bool
  | PyVal.none => false
  | PyVal.str s => s != ""
  | PyVal.int n => n != 0
  | PyVal.list PyList.nil => false
  | PyVal.list _ => true
  | PyVal.dict PyDict.nil => false
  | PyVal.dict _ => true
  | PyVal.obj _ _ => true

/-- Model of `getattr(x, name, None)`: objects expose their attribute table;
no other modelled value exposes the attribute names probed by the code. -/
def pyGetattr : PyVal → String → PyVal
  | PyVal.obj attrs _, name => (pyDictLookup attrs name).getD PyVal.none
  | _, _ => PyVal.none

mutual
/-- Model of Python `repr` on the modelled value fragment (container elements
are rendered with `repr`, string elements get single quotes). -/
def pyRepr : PyVal → String
  | PyVal.none => "None"
  | PyVal.str s => "\x27" ++ s ++ "\x27"
  | PyVal.int n => toString n
  | PyVal.list xs => "[" ++ pyReprList xs ++ "]"
  | PyVal.dict es => "\x7b" ++ pyReprDict es ++ "\x7d"
  | PyVal.obj _ srepr => srepr
/-- Comma-separated `repr` of list elements. -/
def pyReprList : PyList → String
  | PyList.nil => ""
  | PyList.cons x PyList.nil => pyRepr x
  | PyList.cons x tl => pyRepr x ++ ", " ++ pyReprList tl
/-- Comma-separated `repr` of dictionary entries. -/
def pyReprDict : PyDict → String
  | PyDict.nil => ""
  | PyDict.cons k v PyDict.nil => "\x27" ++ k ++ "\x27: " ++ pyRepr v
  | PyDict.cons k v tl => "\x27" ++ k ++ "\x27: " ++ pyRepr v ++ ", " ++ pyReprDict tl
end

/-- Model of Python `str`: identity on strings, `repr`-based rendering
elsewhere (so `str({})` is `"\x7b\x7d"`, `str(None)` is `"None"`, and a
generic object renders as its stored representation string). -/
def pyStr : PyVal → String
  | PyVal.str s => s
  | v => pyRepr v

/-- The whitespace characters stripped by Python `str.strip()` (space, tab,
newline, carriage return, vertical tab, form feed). -/
def pyIsSpace (c : Char) : Bool :=
  c = ' ' || c = '\t' || c = '\n' || c = '\r' || c = '\x0b' || c = '\x0c'

/-- Model of Python `str.strip()`: drop leading and trailing whitespace. -/
def pyStrip (s : String) : String :=
  String.mk (((s.data.dropWhile pyIsSpace).reverse.dropWhile pyIsSpace).reverse)

namespace LivekitAgent

/-! Embedding of `VoiceAssistant._extract_text` from `src/livekit/agent.py`
(lines 86-128). The sequential fall-through of the Python method is split into
one definition per stage; each stage returns `Except Unit (Option String)`
where `Except.error ()` marks an uncaught exception and `Except.ok none` the
"no text" sentinel (Python `None`). -/

/-- Final fallback: `try: return str(message).strip() except: return None`.
On the modelled value fragment `str()` never raises, so the fallback always
returns the trimmed rendering (possibly the empty string, which Python
returns as-is). -/
def ext_fallback (message : PyVal) : Except Unit (Option String) :=
  Except.ok (some (pyStrip (pyStr message)))

/-- Mapping stage: `for key in ("text", "message", "content"): value =
message.get(key); if isinstance(value, str) and value.strip(): return
value.strip()`. -/
def dictStrHit (es : PyDict) : List String → Option String
  | [] => Option.none
  | k :: rest =>
    match pyDictLookup es k with
    | some (PyVal.str s) => if pyStrip s ≠ "" then some (pyStrip s) else dictStrHit es rest
    | _ => dictStrHit es rest

/-- Stage for dictionary-shaped messages, then the generic fallback. -/
def ext_dict (message : PyVal) : Except Unit (Option String) :=
  match message with
  | PyVal.dict es =>
    match dictStrHit es ["text", "message", "content"] with
    | some t => Except.ok (some t)
    | Option.none => ext_fallback message
  | _ => ext_fallback message

/-- Stage for the direct `text` attribute: `text_attr = getattr(message,
"text", None); if isinstance(text_attr, str) and text_attr.strip(): return
text_attr.strip()`. -/
def ext_text_attr (message : PyVal) : Except Unit (Option String) :=
  match pyGetattr message "text" with
  | PyVal.str s => if pyStrip s ≠ "" then Except.ok (some (pyStrip s)) else ext_dict message
  | _ => ext_dict message

/-- Stage for the `alternatives` attribute. A truthy non-string `text` value
on the first alternative reaches `text_value.strip()` and raises
`AttributeError`, which no enclosing handler catches: that path is
`Except.error ()`. -/
def ext_alternatives (message : PyVal) : Except Unit (Option String) :=
  let alternatives := pyGetattr message "alternatives"
  if pyTruthy alternatives then
    let first : PyVal :=
      match alternatives with
      | PyVal.list (PyList.cons x _) => x
      | _ => PyVal.none
    if pyTruthy first then
      let tv0 := pyGetattr first "text"
      let tv : PyVal :=
        if pyTruthy tv0 then tv0
        else
          match first with
          | PyVal.dict es => (pyDictLookup es "text").getD PyVal.none
          | _ => tv0
      if pyTruthy tv then
        match tv with
        | PyVal.str s => if pyStrip s ≠ "" then Except.ok (some (pyStrip s)) else ext_text_attr message
        | _ => Except.error ()
      else ext_text_attr message
    else ext_text_attr message
  else ext_text_attr message

/-- Stage for the `content` attribute: `content = getattr(message, "content",
None); if isinstance(content, str): content = content.strip(); if content:
return content`. -/
def ext_content (message : PyVal) : Except Unit (Option String) :=
  match pyGetattr message "content" with
  | PyVal.str s => if pyStrip s ≠ "" then Except.ok (some (pyStrip s)) else ext_alternatives message
  | _ => ext_alternatives message

/-- Embedding of `VoiceAssistant._extract_text` (`src/livekit/agent.py`
lines 86-128): `None` yields the sentinel, a string yields
`message.strip() or None`, anything else enters the attribute-probing chain. -/
def extract_text (message : PyVal) : Except Unit (Option String) :=
  match message with
  | PyVal.none => Except.ok Option.none
  | PyVal.str s => Except.ok (if pyStrip s = "" then Option.none else some (pyStrip s))
  | _ => ext_content message

/-- Attribute loop of `_extract_language`: `for attr in ("language",
"language_code", "detected_language"): value = getattr(message, attr, None);
if isinstance(value, str) and value: return value`. -/
def langAttrHit (m : PyVal) : List String → Option String
  | [] => Option.none
  | k :: rest =>
    match pyGetattr m k with
    | PyVal.str s => if s ≠ "" then some s else langAttrHit m rest
    | _ => langAttrHit m rest

/-- Key loop of `_extract_language` over dictionary-shaped messages. -/
def langKeyHit (es : PyDict) : List String → Option String
  | [] => Option.none
  | k :: rest =>
    match pyDictLookup es k with
    | some (PyVal.str s) => if s ≠ "" then some s else langKeyHit es rest
    | _ => langKeyHit es rest

/-- Embedding of `VoiceAssistant._extract_language` (`src/livekit/agent.py`
lines 130-146); total, since every access is guarded. -/
def extract_language (message : PyVal) : Option String :=
  match message with
  | PyVal.none => Option.none
  | _ =>
    match langAttrHit message ["language", "language_code", "detected_language"] with
    | some v => some v
    | Option.none =>
      match message with
      | PyVal.dict es => langKeyHit es ["language", "language_code", "detected_language"]
      | _ => Option.none

end LivekitAgent

namespace BackendAgent

/-! Embedding of the second copy of the extraction functions,
`AttarTravelVoiceAssistant._extract_text` and `._extract_language` from
`src/AI_travel/backend/livekit_agent.py` (lines 77-132), transcribed from that
file independently of the `LivekitAgent` namespace. -/

/-- Final fallback of the backend copy: `try: return str(message).strip()
except: return None`. -/
def ext_fallback (message : PyVal) : Except Unit (Option String) :=
  Except.ok (some (pyStrip (pyStr message)))

/-- Mapping-key loop of the backend copy over `("text", "message",
"content")`. -/
def dictStrHit (es : PyDict) : List String → Option String
  | [] => Option.none
  | k :: rest =>
    match pyDictLookup es k with
    | some (PyVal.str s) => if pyStrip s ≠ "" then some (pyStrip s) else dictStrHit es rest
    | _ => dictStrHit es rest

/-- Dictionary stage of the backend copy. -/
def ext_dict (message : PyVal) : Except Unit (Option String) :=
  match message with
  | PyVal.dict es =>
    match dictStrHit es ["text", "message", "content"] with
    | some t => Except.ok (some t)
    | Option.none => ext_fallback message
  | _ => ext_fallback message

/-- Direct `text`-attribute stage of the backend copy. -/
def ext_text_attr (message : PyVal) : Except Unit (Option String) :=
  match pyGetattr message "text" with
  | PyVal.str s => if pyStrip s ≠ "" then Except.ok (some (pyStrip s)) else ext_dict message
  | _ => ext_dict message

/-- `alternatives` stage of the backend copy (same uncaught
`text_value.strip()` on truthy non-string values). -/
def ext_alternatives (message : PyVal) : Except Unit (Option String) :=
  let alternatives := pyGetattr message "alternatives"
  if pyTruthy alternatives then
    let first : PyVal :=
      match alternatives with
      | PyVal.list (PyList.cons x _) => x
      | _ => PyVal.none
    if pyTruthy first then
      let tv0 := pyGetattr first "text"
      let tv : PyVal :=
        if pyTruthy tv0 then tv0
        else
          match first with
          | PyVal.dict es => (pyDictLookup es "text").getD PyVal.none
          | _ => tv0
      if pyTruthy tv then
        match tv with
        | PyVal.str s => if pyStrip s ≠ "" then Except.ok (some (pyStrip s)) else ext_text_attr message
        | _ => Except.error ()
      else ext_text_attr message
    else ext_text_attr message
  else ext_text_attr message

/-- `content`-attribute stage of the backend copy. -/
def ext_content (message : PyVal) : Except Unit (Option String) :=
  match pyGetattr message "content" with
  | PyVal.str s => if pyStrip s ≠ "" then Except.ok (some (pyStrip s)) else ext_alternatives message
  | _ => ext_alternatives message

/-- Embedding of `AttarTravelVoiceAssistant._extract_text`
(`src/AI_travel/backend/livekit_agent.py` lines 77-115). -/
def extract_text (message : PyVal) : Except Unit (Option String) :=
  match message with
  | PyVal.none => Except.ok Option.none
  | PyVal.str s => Except.ok (if pyStrip s = "" then Option.none else some (pyStrip s))
  | _ => ext_content message

/-- Attribute loop of the backend `_extract_language`. -/
def langAttrHit (m : PyVal) : List String → Option String
  | [] => Option.none
  | k :: rest =>
    match pyGetattr m k with
    | PyVal.str s => if s ≠ "" then some s else langAttrHit m rest
    | _ => langAttrHit m rest

/-- Key loop of the backend `_extract_language`. -/
def langKeyHit (es : PyDict) : List String → Option String
  | [] => Option.none
  | k :: rest =>
    match pyDictLookup es k with
    | some (PyVal.str s) => if s ≠ "" then some s else langKeyHit es rest
    | _ => langKeyHit es rest

/-- Embedding of `AttarTravelVoiceAssistant._extract_language`
(`src/AI_travel/backend/livekit_agent.py` lines 117-132). -/
def extract_language (message : PyVal) : Option String :=
  match message with
  | PyVal.none => Option.none
  | _ =>
    match langAttrHit message ["language", "language_code", "detected_language"] with
    | some v => some v
    | Option.none =>
      match message with
      | PyVal.dict es => langKeyHit es ["language", "language_code", "detected_language"]
      | _ => Option.none

end BackendAgent

/-! ## JSON documents and the per-room session context -/

mutual
/-- Fragment of JSON exchanged with the backend that the agent code
inspects: null, strings, objects and arrays. -/
inductive JValue where
  | null : JValue
  | str (s : String) : JValue
  | dict (entries : JEntries) : JValue
  | arr (elems : JList) : JValue
  deriving DecidableEq
/-- JSON object entries as an association list. -/
inductive JEntries where
  | nil : JEntries
  | cons (key : String) (val : JValue) (tl : JEntries) : JEntries
  deriving DecidableEq
/-- JSON array elements. -/
inductive JList where
  | nil : JList
  | cons (hd : JValue) (tl : JList) : JList
  deriving DecidableEq
end

/-- First binding of a key in a JSON object (`data.get(key)` without a
default returns `None` exactly when the lookup is `none` here; an explicit
JSON `null` is `some JValue.null`). -/
def jlookup : JEntries → String → Option JValue
  | JEntries.nil, _ => Option.none
  | JEntries.cons k v rest, key => if k = key then some v else jlookup rest key

/-- Python truthiness of a JSON value (`if session_info:` and similar). -/
def jsonTruthy : JValue → Bool
  | JValue.null => false
  | JValue.str s => s != ""
  | JValue.dict JEntries.nil => false
  | JValue.dict _ => true
  | JValue.arr JList.nil => false
  | JValue.arr _ => true

namespace LivekitAgent

/-- The mutable `transcript_context` dictionary of `VoiceAssistant.entrypoint`
(`src/livekit/agent.py` lines 205-210). The identity fields hold whatever the
backend supplied (`JValue.null` plays the role of Python `None`, the "unset"
value). -/
structure SessionContext where
  room_name : String
  session_id : JValue
  customer_email : JValue
  language : JValue
  deriving DecidableEq

/-- Creation of `transcript_context` at room join (`src/livekit/agent.py`
lines 205-210): identifiers start unset and the language starts as
`"en-US"`. -/
def context_create (room_name : String) : SessionContext :=
  { room_name := room_name
    session_id := JValue.null
    customer_email := JValue.null
    language := JValue.str "en-US" }

/-- Binding of the backend session-info response into the context
(`src/livekit/agent.py` lines 214-221). `info` is the result of
`_fetch_session_info`: `none` when the lookup failed, otherwise the JSON
object it returned. `if session_info:` makes an empty object a no-op. -/
def bind_session_info (info : Option JEntries) (ctx : SessionContext) : SessionContext :=
  match info with
  | Option.none => ctx
  | some es =>
    if jsonTruthy (JValue.dict es) then
      let ctx1 : SessionContext :=
        { ctx with
          session_id := (jlookup es "session_id").getD JValue.null
          customer_email := (jlookup es "customer_email").getD JValue.null }
      match jlookup es "metadata" with
      | some (JValue.dict ms) =>
        if jsonTruthy (JValue.dict ms) then
          match jlookup ms "language" with
          | some hint => if jsonTruthy hint then { ctx1 with language := hint } else ctx1
          | Option.none => ctx1
        else ctx1
      | _ => ctx1
    else ctx

/-- Outcome of the transcript POST as observed by `_send_transcript`:
either an exception while talking to the backend (network error, timeout),
or an HTTP response with a status and a parsed JSON body (`none` when
`resp.json()` itself raised). -/
inductive RelayOutcome where
  | netError : RelayOutcome
  | response (status : Nat) (body : Option JValue) : RelayOutcome
  deriving DecidableEq

/-- Keyword arguments of `_send_transcript` other than `context`
(`src/livekit/agent.py` lines 148-151). -/
structure TranscriptArgs where
  room_name : String
  session_id : JValue
  customer_email : JValue
  speaker : String
  text : String
  language : JValue
  deriving DecidableEq

/-- The JSON payload built by `_send_transcript` (`src/livekit/agent.py`
lines 157-165); `now` stands for `datetime.utcnow()`. -/
structure TranscriptPayload where
  room_name : String
  session_id : JValue
  customer_email : JValue
  speaker : String
  text : String
  language : JValue
  timestamp : Nat
  deriving DecidableEq

/-- Payload construction, including `"language": language or "en-US"`. -/
def build_payload (args : TranscriptArgs) (now : Nat) : TranscriptPayload :=
  { room_name := args.room_name
    session_id := args.session_id
    customer_email := args.customer_email
    speaker := args.speaker
    text := args.text
    language := if jsonTruthy args.language then args.language else JValue.str "en-US"
    timestamp := now }

/-- Embedding of `VoiceAssistant._send_transcript` (`src/livekit/agent.py`
lines 148-191). Returns the updated context together with the list of POST
attempts issued (the body performs exactly one `session.post`). Every failure
is swallowed by the surrounding handlers, so the embedding is total: a
network error or a failing status leaves the context untouched, a successful
response merges `session_id` and `customer_email` from the response object
via `data.get(key, context.get(key))`. -/
def send_transcript (backend_url : String) (args : TranscriptArgs) (now : Nat)
    (ctx : SessionContext) (out : RelayOutcome) :
    SessionContext × List TranscriptPayload :=
  if backend_url = "" then (ctx, [])
  else
    let payload := build_payload args now
    match out with
    | RelayOutcome.netError => (ctx, [payload])
    | RelayOutcome.response status body =>
      if 300 ≤ status then (ctx, [payload])
      else
        match body with
        | some (JValue.dict ds) =>
          ({ ctx with
             session_id := (jlookup ds "session_id").getD ctx.session_id
             customer_email := (jlookup ds "customer_email").getD ctx.customer_email },
           [payload])
        | _ => (ctx, [payload])

/-- Embedding of the `_queue_transcript` closure (`src/livekit/agent.py`
lines 329-348). It extracts text (propagating the uncaught exception of
`_extract_text` when it raises), returns immediately on falsy text
(`if not text: return`), otherwise updates the context language from the
detected language hint and dispatches exactly one `_send_transcript` task,
returned here as the argument tuple of that task. -/
def queue_transcript (speaker : String) (raw_message : PyVal) (ctx : SessionContext) :
    Except Unit (SessionContext × List TranscriptArgs) :=
  match extract_text raw_message with
  | Except.error e => Except.error e
  | Except.ok t =>
    match t with
    | Option.none => Except.ok (ctx, [])
    | some text =>
      if text = "" then Except.ok (ctx, [])
      else
        let ctx1 : SessionContext :=
          match extract_language raw_message with
          | some l => { ctx with language := JValue.str l }
          | Option.none => ctx
        Except.ok
          (ctx1,
           [{ room_name := ctx1.room_name
              session_id := ctx1.session_id
              customer_email := ctx1.customer_email
              speaker := speaker
              text := text
              language := ctx1.language }])

/-- One relay dispatch as it affects the shared context: the argument tuple
and clock value captured at dispatch time together with the observed HTTP
outcome. -/
structure RelayEvent where
  args : TranscriptArgs
  now : Nat
  outcome : RelayOutcome
  deriving DecidableEq

/-- Context evolution across a sequence of completed `_send_transcript`
calls. -/
def relay_trace (backend_url : String) (ctx : SessionContext) :
    List RelayEvent → SessionContext
  | [] => ctx
  | e :: rest =>
    relay_trace backend_url (send_transcript backend_url e.args e.now ctx e.outcome).1 rest

/-- A relay outcome that never maps `session_id` or `customer_email` to an
explicit JSON `null` in a successful response body. -/
def no_null_identity (e : RelayEvent) : Bool :=
  match e.outcome with
  | RelayOutcome.response status (some (JValue.dict ds)) =>
    decide (300 ≤ status) ||
      (decide (jlookup ds "session_id" ≠ some JValue.null) &&
       decide (jlookup ds "customer_email" ≠ some JValue.null))
  | _ => true

end LivekitAgent

/-! ## Conversation store (`src/AI_travel/Database/database.py`) -/

namespace TravelDatabase

/-- One row of the `conversations` table as inserted by `save_conversation`
(`src/AI_travel/Database/database.py` lines 245-258); `created_at` models the
`datetime.now()` column value. -/
structure ConversationRow where
  customer_email : String
  session_id : String
  message_type : String
  message_text : String
  language : String
  created_at : Nat
  deriving DecidableEq

/-- Embedding of `save_conversation` (`src/AI_travel/Database/database.py`
lines 245-258): one `INSERT` appending a row to the table; the clock value
`now` is passed explicitly. -/
def save_conversation (customer_email session_id message_type message_text language : String)
    (now : Nat) (db : List ConversationRow) : List ConversationRow :=
  db ++ [{ customer_email := customer_email
           session_id := session_id
           message_type := message_type
           message_text := message_text
           language := language
           created_at := now }]

/-- Projection selected by the query of `get_conversation_history`
(`SELECT message_type, message_text, language, created_at`). -/
structure FetchedMessage where
  message_type : String
  message_text : String
  language : String
  created_at : Nat
  deriving DecidableEq

/-- Embedding of the query in `get_conversation_history`
(`src/AI_travel/Database/database.py` lines 270-277): filter the table to one
`customer_email` (the `session_id` column is neither filtered on nor
selected), order by `created_at ASC` — modelled as a stable sort, which keeps
insertion order among equal timestamps — and project the four selected
columns. -/
def fetch_messages (db : List ConversationRow) (customer_email : String) :
    List FetchedMessage :=
  (((db.filter (fun r => r.customer_email = customer_email)).insertionSort
      (fun a b => a.created_at ≤ b.created_at)).map
    (fun r => { message_type := r.message_type
                message_text := r.message_text
                language := r.language
                created_at := r.created_at }))

/-- One entry of the list returned by `get_conversation_history`
(`src/AI_travel/Database/database.py` lines 298-303); `duration` is always the
literal `"N/A"`. -/
structure ConversationTurn where
  user_message : String
  ai_response : String
  created_at : Nat
  duration : String
  deriving DecidableEq

/-- Embedding of the pairing loop of `get_conversation_history`
(`src/AI_travel/Database/database.py` lines 280-305): a single forward cursor
over the fetched messages; a `user` message opens a turn, an immediately
following `assistant` message is consumed as its reply (cursor advances two
steps), otherwise the reply is the `"No response"` sentinel (cursor advances
one step); any other message is skipped. -/
def pair_messages : List FetchedMessage → List ConversationTurn
  | [] => []
  | m :: rest =>
    if m.message_type = "user" then
      match rest with
      | m2 :: rest2 =>
        if m2.message_type = "assistant" then
          { user_message := m.message_text
            ai_response := m2.message_text
            created_at := m.created_at
            duration := "N/A" } :: pair_messages rest2
        else
          { user_message := m.message_text
            ai_response := "No response"
            created_at := m.created_at
            duration := "N/A" } :: pair_messages (m2 :: rest2)
      | [] =>
        [{ user_message := m.message_text
           ai_response := "No response"
           created_at := m.created_at
           duration := "N/A" }]
    else
      pair_messages rest

/-- Python list slicing `xs[:limit]` for an `int` limit: a nonnegative limit
keeps the first `limit` elements; a negative limit drops the last `|limit|`
elements. -/
def py_slice_limit {α : Type} (limit : Int) (xs : List α) : List α :=
  if 0 ≤ limit then xs.take limit.toNat
  else xs.take (xs.length - limit.natAbs)

/-- Embedding of `get_conversation_history`
(`src/AI_travel/Database/database.py` lines 265-309): fetch the customer's
messages oldest-first, pair them into turns, reverse so the most recent turn
comes first, and apply `conversations[:limit]`. -/
def get_conversation_history (db : List ConversationRow) (customer_email : String)
    (limit : Int) : List ConversationTurn :=
  py_slice_limit limit (pair_messages (fetch_messages db customer_email)).reverse

/-- Appending a batch of messages through `save_conversation`, one call per
row, oldest first. -/
def save_all (entries : List ConversationRow) (db : List ConversationRow) :
    List ConversationRow :=
  entries.foldl
    (fun d r =>
      save_conversation r.customer_email r.session_id r.message_type r.message_text
        r.language r.created_at d)
    db

/-- The projection applied by the `SELECT` of `get_conversation_history`. -/
def sel_row (r : ConversationRow) : FetchedMessage :=
  { message_type := r.message_type
    message_text := r.message_text
    language := r.language
    created_at := r.created_at }

end TravelDatabase

/-! ## Auxiliary instances and concrete data used by witnesses -/

deriving instance DecidableEq for Except

namespace TravelDatabase

/-- A conversation table holding five complete user/assistant turns for one
customer, timestamps strictly increasing. -/
def five_turn_db : List ConversationRow :=
  [{ customer_email := "c@x.com", session_id := "S", message_type := "user",
     message_text := "u1", language := "en-US", created_at := 1 },
   { customer_email := "c@x.com", session_id := "S", message_type := "assistant",
     message_text := "a1", language := "en-US", created_at := 2 },
   { customer_email := "c@x.com", session_id := "S", message_type := "user",
     message_text := "u2", language := "en-US", created_at := 3 },
   { customer_email := "c@x.com", session_id := "S", message_type := "assistant",
     message_text := "a2", language := "en-US", created_at := 4 },
   { customer_email := "c@x.com", session_id := "S", message_type := "user",
     message_text := "u3", language := "en-US", created_at := 5 },
   { customer_email := "c@x.com", session_id := "S", message_type := "assistant",
     message_text := "a3", language := "en-US", created_at := 6 },
   { customer_email := "c@x.com", session_id := "S", message_type := "user",
     message_text := "u4", language := "en-US", created_at := 7 },
   { customer_email := "c@x.com", session_id := "S", message_type := "assistant",
     message_text := "a4", language := "en-US", created_at := 8 },
   { customer_email := "c@x.com", session_id := "S", message_type := "user",
     message_text := "u5", language := "en-US", created_at := 9 },
   { customer_email := "c@x.com", session_id := "S", message_type := "assistant",
     message_text := "a5", language := "en-US", created_at := 10 }]

/-- A conversation table holding two unanswered user messages. -/
def two_user_db : List ConversationRow :=
  [{ customer_email := "c@x.com", session_id := "S", message_type := "user",
     message_text := "u1", language := "en-US", created_at := 1 },
   { customer_email := "c@x.com", session_id := "S", message_type := "user",
     message_text := "u2", language := "en-US", created_at := 2 }]

end TravelDatabase

/-! ## Theorems -/

namespace LivekitAgent

theorem send_transcript_room_name (url : String) (args : TranscriptArgs) (now : Nat)
    (ctx : SessionContext) (out : RelayOutcome) :
    ((send_transcript url args now ctx out).1).room_name = ctx.room_name := by
  unfold send_transcript
  by_cases h : url = ""
  · simp [h]
  · rcases out with _ | ⟨st, body⟩
    · simp [h]
    · by_cases h3 : (300 : Nat) ≤ st
      · simp [h, h3]
      · rcases body with _ | b
        · simp [h, h3]
        · rcases b with _ | s | ds | xs <;> simp [h, h3]

theorem send_transcript_language (url : String) (args : TranscriptArgs) (now : Nat)
    (ctx : SessionContext) (out : RelayOutcome) :
    ((send_transcript url args now ctx out).1).language = ctx.language := by
  unfold send_transcript
  by_cases h : url = ""
  · simp [h]
  · rcases out with _ | ⟨st, body⟩
    · simp [h]
    · by_cases h3 : (300 : Nat) ≤ st
      · simp [h, h3]
      · rcases body with _ | b
        · simp [h, h3]
        · rcases b with _ | s | ds | xs <;> simp [h, h3]

theorem send_transcript_keeps_session_id (url : String) (args : TranscriptArgs) (now : Nat)
    (ctx : SessionContext) (out : RelayOutcome)
    (hgood : no_null_identity { args := args, now := now, outcome := out } = true)
    (hset : ctx.session_id ≠ JValue.null) :
    ((send_transcript url args now ctx out).1).session_id ≠ JValue.null := by
  unfold send_transcript
  by_cases h : url = ""
  · simpa [h] using hset
  · rcases out with _ | ⟨st, body⟩
    · simpa [h] using hset
    · by_cases h3 : (300 : Nat) ≤ st
      · simpa [h, h3] using hset
      · rcases body with _ | b
        · simpa [h, h3] using hset
        · rcases b with _ | s | ds | xs
          · simpa [h, h3] using hset
          · simpa [h, h3] using hset
          · simp only [no_null_identity, Bool.or_eq_true, Bool.and_eq_true,
              decide_eq_true_eq] at hgood
            rcases hgood with hgood | ⟨hs, _⟩
            · exact absurd hgood h3
            · rcases hl : jlookup ds "session_id" with _ | v
              · simpa [h, h3, hl] using hset
              · have hv : v ≠ JValue.null := by
                  intro hv; exact hs (hv ▸ hl)
                simpa [h, h3, hl] using hv
          · simpa [h, h3] using hset

theorem send_transcript_keeps_customer_email (url : String) (args : TranscriptArgs) (now : Nat)
    (ctx : SessionContext) (out : RelayOutcome)
    (hgood : no_null_identity { args := args, now := now, outcome := out } = true)
    (hset : ctx.customer_email ≠ JValue.null) :
    ((send_transcript url args now ctx out).1).customer_email ≠ JValue.null := by
  unfold send_transcript
  by_cases h : url = ""
  · simpa [h] using hset
  · rcases out with _ | ⟨st, body⟩
    · simpa [h] using hset
    · by_cases h3 : (300 : Nat) ≤ st
      · simpa [h, h3] using hset
      · rcases body with _ | b
        · simpa [h, h3] using hset
        · rcases b with _ | s | ds | xs
          · simpa [h, h3] using hset
          · simpa [h, h3] using hset
          · simp only [no_null_identity, Bool.or_eq_true, Bool.and_eq_true,
              decide_eq_true_eq] at hgood
            rcases hgood with hgood | ⟨_, he⟩
            · exact absurd hgood h3
            · rcases hl : jlookup ds "customer_email" with _ | v
              · simpa [h, h3, hl] using hset
              · have hv : v ≠ JValue.null := by
                  intro hv; exact he (hv ▸ hl)
                simpa [h, h3, hl] using hv
          · simpa [h, h3] using hset

theorem relay_trace_append (url : String) (ctx : SessionContext) (l1 l2 : List RelayEvent) :
    relay_trace url ctx (l1 ++ l2) = relay_trace url (relay_trace url ctx l1) l2 := by
  induction l1 generalizing ctx with
  | nil => rfl
  | cons e rest ih => simp [relay_trace, ih]

theorem relay_trace_room_name (url : String) (ctx : SessionContext) (l : List RelayEvent) :
    (relay_trace url ctx l).room_name = ctx.room_name := by
  induction l generalizing ctx with
  | nil => rfl
  | cons e rest ih =>
    simpa [relay_trace, send_transcript_room_name] using
      (ih (send_transcript url e.args e.now ctx e.outcome).1).trans
        (send_transcript_room_name url e.args e.now ctx e.outcome)

theorem relay_trace_keeps_session_id (url : String) (ctx : SessionContext)
    (l : List RelayEvent) (h : ∀ e ∈ l, no_null_identity e = true)
    (hset : ctx.session_id ≠ JValue.null) :
    (relay_trace url ctx l).session_id ≠ JValue.null := by
  induction l generalizing ctx with
  | nil => exact hset
  | cons e rest ih =>
    exact ih (send_transcript url e.args e.now ctx e.outcome).1
      (fun x hx => h x (List.mem_cons_of_mem e hx))
      (send_transcript_keeps_session_id url e.args e.now ctx e.outcome
        (h e (List.mem_cons_self e rest)) hset)

theorem relay_trace_keeps_customer_email (url : String) (ctx : SessionContext)
    (l : List RelayEvent) (h : ∀ e ∈ l, no_null_identity e = true)
    (hset : ctx.customer_email ≠ JValue.null) :
    (relay_trace url ctx l).customer_email ≠ JValue.null := by
  induction l generalizing ctx with
  | nil => exact hset
  | cons e rest ih =>
    exact ih (send_transcript url e.args e.now ctx e.outcome).1
      (fun x hx => h x (List.mem_cons_of_mem e hx))
      (send_transcript_keeps_customer_email url e.args e.now ctx e.outcome
        (h e (List.mem_cons_self e rest)) hset)

theorem bind_session_info_room_name (info : Option JEntries) (ctx : SessionContext) :
    (bind_session_info info ctx).room_name = ctx.room_name := by
  unfold bind_session_info
  split
  · rfl
  · split
    · split
      · split
        · split
          · split
            · rfl
            · rfl
          · rfl
        · rfl
      · rfl
    · rfl

end LivekitAgent

/-- Claim C2 (amended): for every sequence of operations on a room's session
context — creation at room join, the initial session-info binding, then any
number of completed transcript-relay responses — `room_name` never changes
after creation, and once `session_id` or `customer_email` holds a value it is
never reset to unset, provided no successful relay response maps that key to
an explicit JSON `null` (`no_null_identity`). -/
theorem spec2proof_C2 (r : String) (info : Option JEntries) (url : String)
    (pre suf : List LivekitAgent.RelayEvent)
    (hgood : ∀ ev ∈ suf, LivekitAgent.no_null_identity ev = true) :
    (LivekitAgent.relay_trace url
        (LivekitAgent.bind_session_info info (LivekitAgent.context_create r))
        (pre ++ suf)).room_name = r ∧
    ((LivekitAgent.relay_trace url
        (LivekitAgent.bind_session_info info (LivekitAgent.context_create r))
        pre).session_id ≠ JValue.null →
      (LivekitAgent.relay_trace url
          (LivekitAgent.bind_session_info info (LivekitAgent.context_create r))
          (pre ++ suf)).session_id ≠ JValue.null) ∧
    ((LivekitAgent.relay_trace url
        (LivekitAgent.bind_session_info info (LivekitAgent.context_create r))
        pre).customer_email ≠ JValue.null →
      (LivekitAgent.relay_trace url
          (LivekitAgent.bind_session_info info (LivekitAgent.context_create r))
          (pre ++ suf)).customer_email ≠ JValue.null) := by
  refine ⟨?_, ?_, ?_⟩
  · rw [LivekitAgent.relay_trace_room_name, LivekitAgent.bind_session_info_room_name]
    rfl
  · intro hset
    rw [LivekitAgent.relay_trace_append]
    exact LivekitAgent.relay_trace_keeps_session_id url _ suf hgood hset
  · intro hset
    rw [LivekitAgent.relay_trace_append]
    exact LivekitAgent.relay_trace_keeps_customer_email url _ suf hgood hset

/-- Witness for C2: a concrete trace — binding supplies `session_id` `"S0"`,
one successful relay response supplies `customer_email` — after which both
identity fields stay set across a further good response and a network
error. -/
theorem spec2proof_C2_witness :
    (LivekitAgent.relay_trace "http://localhost:8000"
        (LivekitAgent.bind_session_info
          (some (JEntries.cons "session_id" (JValue.str "S0") JEntries.nil))
          (LivekitAgent.context_create "room1"))
        ([{ args := { room_name := "room1", session_id := JValue.str "S0",
                      customer_email := JValue.null, speaker := "user", text := "hi",
                      language := JValue.str "en-US" },
            now := 1,
            outcome := LivekitAgent.RelayOutcome.response 200 (some (JValue.dict
              (JEntries.cons "session_id" (JValue.str "S0")
                (JEntries.cons "customer_email" (JValue.str "a@b.com") JEntries.nil)))) }] ++
         [{ args := { room_name := "room1", session_id := JValue.str "S0",
                      customer_email := JValue.str "a@b.com", speaker := "assistant",
                      text := "hello", language := JValue.str "en-US" },
            now := 2,
            outcome := LivekitAgent.RelayOutcome.netError }])).room_name = "room1" ∧
    ((LivekitAgent.relay_trace "http://localhost:8000"
        (LivekitAgent.bind_session_info
          (some (JEntries.cons "session_id" (JValue.str "S0") JEntries.nil))
          (LivekitAgent.context_create "room1"))
        [{ args := { room_name := "room1", session_id := JValue.str "S0",
                     customer_email := JValue.null, speaker := "user", text := "hi",
                     language := JValue.str "en-US" },
           now := 1,
           outcome := LivekitAgent.RelayOutcome.response 200 (some (JValue.dict
             (JEntries.cons "session_id" (JValue.str "S0")
               (JEntries.cons "customer_email" (JValue.str "a@b.com") JEntries.nil)))) }]).session_id
        ≠ JValue.null →
      (LivekitAgent.relay_trace "http://localhost:8000"
          (LivekitAgent.bind_session_info
            (some (JEntries.cons "session_id" (JValue.str "S0") JEntries.nil))
            (LivekitAgent.context_create "room1"))
          ([{ args := { room_name := "room1", session_id := JValue.str "S0",
                        customer_email := JValue.null, speaker := "user", text := "hi",
                        language := JValue.str "en-US" },
              now := 1,
              outcome := LivekitAgent.RelayOutcome.response 200 (some (JValue.dict
                (JEntries.cons "session_id" (JValue.str "S0")
                  (JEntries.cons "customer_email" (JValue.str "a@b.com") JEntries.nil)))) }] ++
           [{ args := { room_name := "room1", session_id := JValue.str "S0",
                        customer_email := JValue.str "a@b.com", speaker := "assistant",
                        text := "hello", language := JValue.str "en-US" },
              now := 2,
              outcome := LivekitAgent.RelayOutcome.netError }])).session_id ≠ JValue.null) := by
  have h := spec2proof_C2 "room1"
    (some (JEntries.cons "session_id" (JValue.str "S0") JEntries.nil))
    "http://localhost:8000"
    [{ args := { room_name := "room1", session_id := JValue.str "S0",
                 customer_email := JValue.null, speaker := "user", text := "hi",
                 language := JValue.str "en-US" },
       now := 1,
       outcome := LivekitAgent.RelayOutcome.response 200 (some (JValue.dict
         (JEntries.cons "session_id" (JValue.str "S0")
           (JEntries.cons "customer_email" (JValue.str "a@b.com") JEntries.nil)))) }]
    [{ args := { room_name := "room1", session_id := JValue.str "S0",
                 customer_email := JValue.str "a@b.com", speaker := "assistant",
                 text := "hello", language := JValue.str "en-US" },
       now := 2,
       outcome := LivekitAgent.RelayOutcome.netError }]
    (by decide)
  exact ⟨h.1, h.2.1⟩

/-- Counterexample to C2 as stated: a successful relay response whose body
carries an explicit `"session_id": null` resets the already-set `session_id`
back to unset, so "once either holds a value, no later operation resets it to
unset" is false for the unrestricted operation sequence. -/
theorem spec2proof_C2_counterexample :
    (LivekitAgent.bind_session_info
        (some (JEntries.cons "session_id" (JValue.str "S1") JEntries.nil))
        (LivekitAgent.context_create "room1")).session_id = JValue.str "S1" ∧
    (LivekitAgent.relay_trace "http://localhost:8000"
        (LivekitAgent.bind_session_info
          (some (JEntries.cons "session_id" (JValue.str "S1") JEntries.nil))
          (LivekitAgent.context_create "room1"))
        [{ args := { room_name := "room1", session_id := JValue.str "S1",
                     customer_email := JValue.null, speaker := "user", text := "x",
                     language := JValue.str "en-US" },
           now := 1,
           outcome := LivekitAgent.RelayOutcome.response 200 (some (JValue.dict
             (JEntries.cons "session_id" JValue.null JEntries.nil))) }]).session_id
      = JValue.null := by
  decide

/-- Claim C4: when the transcript POST succeeds (status < 300) and the JSON
response object carries string values for `session_id` and `customer_email`,
the context's fields are updated to exactly those values, overwriting
whatever they held before (the prior context is arbitrary here). -/
theorem spec2proof_C4 (url : String) (args : LivekitAgent.TranscriptArgs) (now : Nat)
    (ctx : LivekitAgent.SessionContext) (status : Nat) (ds : JEntries) (s e : String)
    (hurl : url ≠ "") (hst : status < 300)
    (hs : jlookup ds "session_id" = some (JValue.str s))
    (he : jlookup ds "customer_email" = some (JValue.str e)) :
    (LivekitAgent.send_transcript url args now ctx
        (LivekitAgent.RelayOutcome.response status (some (JValue.dict ds)))).1
      = { ctx with session_id := JValue.str s, customer_email := JValue.str e } := by
  have h3 : ¬ (300 ≤ status) := by omega
  simp [LivekitAgent.send_transcript, hurl, h3, hs, he]

/-- Witness for C4: the response `{"session_id": "S1", "customer_email":
"a@b.com"}` overwrites previously set values `"OLD"`/`"old@x.com"`. -/
theorem spec2proof_C4_witness :
    (LivekitAgent.send_transcript "http://localhost:8000"
        { room_name := "room1", session_id := JValue.str "OLD",
          customer_email := JValue.str "old@x.com", speaker := "user", text := "hi",
          language := JValue.str "en-US" } 7
        { room_name := "room1", session_id := JValue.str "OLD",
          customer_email := JValue.str "old@x.com", language := JValue.str "en-US" }
        (LivekitAgent.RelayOutcome.response 200 (some (JValue.dict
          (JEntries.cons "session_id" (JValue.str "S1")
            (JEntries.cons "customer_email" (JValue.str "a@b.com") JEntries.nil)))))).1
      = { room_name := "room1", session_id := JValue.str "S1",
          customer_email := JValue.str "a@b.com", language := JValue.str "en-US" } :=
  spec2proof_C4 _ _ _ _ _ _ _ _ (by decide) (by decide) (by decide) (by decide)

/-- Claim C5: when the transcript POST fails — status ≥ 300, or an exception
(network error, timeout, unparsable body) — the call returns normally (the
embedding is total: every failure is swallowed) and the session context is
left unchanged in every field; moreover each call issues at most one POST
attempt, so nothing is retried, queued or buffered. -/
theorem spec2proof_C5 (url : String) (args : LivekitAgent.TranscriptArgs) (now : Nat)
    (ctx : LivekitAgent.SessionContext) :
    (∀ (status : Nat) (body : Option JValue), 300 ≤ status →
        (LivekitAgent.send_transcript url args now ctx
            (LivekitAgent.RelayOutcome.response status body)).1 = ctx) ∧
    (LivekitAgent.send_transcript url args now ctx LivekitAgent.RelayOutcome.netError).1
      = ctx ∧
    (∀ out : LivekitAgent.RelayOutcome,
        (LivekitAgent.send_transcript url args now ctx out).2.length ≤ 1) := by
  refine ⟨?_, ?_, ?_⟩
  · intro status body h
    by_cases hu : url = "" <;> simp [LivekitAgent.send_transcript, hu, h]
  · by_cases hu : url = "" <;> simp [LivekitAgent.send_transcript, hu]
  · intro out
    by_cases hu : url = ""
    · simp [LivekitAgent.send_transcript, hu]
    · rcases out with _ | ⟨st, body⟩
      · simp [LivekitAgent.send_transcript, hu]
      · by_cases h3 : (300 : Nat) ≤ st
        · simp [LivekitAgent.send_transcript, hu, h3]
        · rcases body with _ | b
          · simp [LivekitAgent.send_transcript, hu, h3]
          · rcases b with _ | s | ds | xs <;> simp [LivekitAgent.send_transcript, hu, h3]

/-- Witness for C5: a concrete HTTP 500 response leaves a freshly created
context unchanged. -/
theorem spec2proof_C5_witness :
    (LivekitAgent.send_transcript "http://localhost:8000"
        { room_name := "room1", session_id := JValue.null, customer_email := JValue.null,
          speaker := "user", text := "hi", language := JValue.str "en-US" } 3
        (LivekitAgent.context_create "room1")
        (LivekitAgent.RelayOutcome.response 500 (some (JValue.dict JEntries.nil)))).1
      = LivekitAgent.context_create "room1" :=
  (spec2proof_C5 "http://localhost:8000"
      { room_name := "room1", session_id := JValue.null, customer_email := JValue.null,
        speaker := "user", text := "hi", language := JValue.str "en-US" } 3
      (LivekitAgent.context_create "room1")).1
    500 (some (JValue.dict JEntries.nil)) (by decide)

/-- Claim C6: when text extraction yields no usable text (the `None` sentinel
or an empty string, both falsy in `if not text:`), `_queue_transcript` is a
no-op: no task is dispatched, no argument tuple is built, and the session
context — including its `language` field — is returned unchanged. -/
theorem spec2proof_C6 (speaker : String) (raw : PyVal) (ctx : LivekitAgent.SessionContext)
    (h : LivekitAgent.extract_text raw = Except.ok Option.none ∨
         LivekitAgent.extract_text raw = Except.ok (some "")) :
    LivekitAgent.queue_transcript speaker raw ctx = Except.ok (ctx, []) := by
  unfold LivekitAgent.queue_transcript
  rcases h with h | h
  · rw [h]
  · rw [h]; simp

/-- Witness for C6: a `None` speech event produces the no-text sentinel and
`_queue_transcript` leaves the context untouched and dispatches nothing. -/
theorem spec2proof_C6_witness :
    LivekitAgent.queue_transcript "user" PyVal.none (LivekitAgent.context_create "room1")
      = Except.ok (LivekitAgent.context_create "room1", []) :=
  spec2proof_C6 "user" PyVal.none (LivekitAgent.context_create "room1") (Or.inl rfl)

/-- Claim C3 (amended): `_extract_text` returns without raising for `None`,
for every string, and for every mapping; `None` (and whitespace-only strings)
yield the no-text sentinel, but an empty mapping yields the generic string
conversion `"\x7b\x7d"` and an object exposing none of the recognized fields
yields its trimmed `str()` rendering — text, not the sentinel. It is not
exception-free on every input: a truthy non-string `text` value inside
`alternatives` reaches `.strip()` and raises. -/
theorem spec2proof_C3 :
    LivekitAgent.extract_text PyVal.none = Except.ok Option.none ∧
    (∀ s : String, LivekitAgent.extract_text (PyVal.str s)
        = Except.ok (if pyStrip s = "" then Option.none else some (pyStrip s))) ∧
    (∀ es : PyDict, ∃ t, LivekitAgent.extract_text (PyVal.dict es) = Except.ok t) ∧
    LivekitAgent.extract_text (PyVal.dict PyDict.nil) = Except.ok (some "\x7b\x7d") ∧
    (∀ (attrs : PyDict) (srepr : String),
        pyDictLookup attrs "content" = Option.none →
        pyDictLookup attrs "alternatives" = Option.none →
        pyDictLookup attrs "text" = Option.none →
        LivekitAgent.extract_text (PyVal.obj attrs srepr)
          = Except.ok (some (pyStrip srepr))) ∧
    (∃ m : PyVal, LivekitAgent.extract_text m = Except.error ()) := by
  refine ⟨rfl, fun s => rfl, ?_, by decide, ?_, ?_⟩
  · intro es
    show ∃ t, LivekitAgent.ext_dict (PyVal.dict es) = Except.ok t
    rcases h : LivekitAgent.dictStrHit es ["text", "message", "content"] with _ | t
    · exact ⟨some (pyStrip (pyStr (PyVal.dict es))), by
        simp only [LivekitAgent.ext_dict, h, LivekitAgent.ext_fallback]⟩
    · exact ⟨some t, by simp only [LivekitAgent.ext_dict, h]⟩
  · intro attrs srepr hc ha ht
    show LivekitAgent.ext_content (PyVal.obj attrs srepr) = _
    simp only [LivekitAgent.ext_content, LivekitAgent.ext_alternatives,
      LivekitAgent.ext_text_attr, LivekitAgent.ext_dict, LivekitAgent.ext_fallback,
      pyGetattr, hc, ha, ht, Option.getD_none, pyTruthy, pyStr, pyRepr,
      Bool.false_eq_true, if_false]
  · exact ⟨PyVal.obj (PyDict.cons "alternatives"
      (PyVal.list (PyList.cons
        (PyVal.obj (PyDict.cons "text" (PyVal.int 5) PyDict.nil) "alt") PyList.nil))
      PyDict.nil) "event", by decide⟩

/-- Witness for C3: an object with none of the recognized fields evaluates to
its trimmed `str()` rendering. -/
theorem spec2proof_C3_witness :
    LivekitAgent.extract_text (PyVal.obj PyDict.nil "  some object  ")
      = Except.ok (some "some object") := by
  have h := spec2proof_C3.2.2.2.2.1 PyDict.nil "  some object  " rfl rfl rfl
  rw [h]
  decide

/-- Counterexample to C3 as stated: feeding `_extract_text` an empty mapping
yields the text `"\x7b\x7d"` (the generic `str()` fallback), not a "no text"
sentinel value. -/
theorem spec2proof_C3_counterexample :
    LivekitAgent.extract_text (PyVal.dict PyDict.nil) = Except.ok (some "\x7b\x7d") ∧
    (Except.ok (some "\x7b\x7d") : Except Unit (Option String)) ≠ Except.ok Option.none := by
  decide

/-- Claim C10: the two copies of the extraction functions — `_extract_text`
and `_extract_language` in `src/livekit/agent.py` and in
`src/AI_travel/backend/livekit_agent.py` — are extensionally equal: on every
modelled input they return the same result. -/
theorem spec2proof_C10 :
    (∀ m : PyVal, LivekitAgent.extract_text m = BackendAgent.extract_text m) ∧
    (∀ m : PyVal, LivekitAgent.extract_language m = BackendAgent.extract_language m) :=
  ⟨fun _ => rfl, fun _ => rfl⟩

namespace TravelDatabase

theorem pair_messages_user_origin (msgs : List FetchedMessage) (t : ConversationTurn)
    (ht : t ∈ pair_messages msgs) :
    ∃ m ∈ msgs, m.message_type = "user" ∧ t.user_message = m.message_text ∧
      t.created_at = m.created_at := by
  induction msgs using pair_messages.induct with
  | case1 => simp [pair_messages] at ht
  | case2 m hu m2 rest2 ha ih =>
    rw [show pair_messages (m :: m2 :: rest2)
        = { user_message := m.message_text, ai_response := m2.message_text,
            created_at := m.created_at, duration := "N/A" } :: pair_messages rest2 by
      simp [pair_messages, hu, ha]] at ht
    rcases List.mem_cons.mp ht with h | h
    · exact ⟨m, List.mem_cons_self m _, hu, by rw [h], by rw [h]⟩
    · rcases ih h with ⟨mm, hmm, rest⟩
      exact ⟨mm, List.mem_cons_of_mem m (List.mem_cons_of_mem m2 hmm), rest⟩
  | case3 m hu m2 rest2 ha ih =>
    rw [show pair_messages (m :: m2 :: rest2)
        = { user_message := m.message_text, ai_response := "No response",
            created_at := m.created_at, duration := "N/A" } :: pair_messages (m2 :: rest2) by
      simp [pair_messages, hu, ha]] at ht
    rcases List.mem_cons.mp ht with h | h
    · exact ⟨m, List.mem_cons_self m _, hu, by rw [h], by rw [h]⟩
    · rcases ih h with ⟨mm, hmm, rest⟩
      exact ⟨mm, List.mem_cons_of_mem m hmm, rest⟩
  | case4 m hu =>
    rw [show pair_messages [m]
        = [{ user_message := m.message_text, ai_response := "No response",
             created_at := m.created_at, duration := "N/A" }] by
      simp [pair_messages, hu]] at ht
    rcases List.mem_singleton.mp ht with h
    exact ⟨m, List.mem_cons_self m _, hu, by rw [h], by rw [h]⟩
  | case5 m rest hu ih =>
    rw [show pair_messages (m :: rest) = pair_messages rest by
      rw [pair_messages.eq_def]; simp [hu]] at ht
    rcases ih ht with ⟨mm, hmm, r⟩
    exact ⟨mm, List.mem_cons_of_mem m hmm, r⟩

end TravelDatabase

/-- Claim C1: the pairing loop of `get_conversation_history` scans the
message log oldest-first with a single forward cursor: a `user` message opens
a turn; an immediately following `assistant` message becomes its reply and
the cursor advances two steps; otherwise the reply is the no-response
sentinel (`"No response"` in the code) and the cursor advances one step; any
other message — in particular a leading or consecutive `assistant` message —
is skipped and produces no turn, so every output turn originates from a
`user` message of the input. -/
theorem spec2proof_C1 :
    TravelDatabase.pair_messages [] = [] ∧
    (∀ (m : TravelDatabase.FetchedMessage) (rest : List TravelDatabase.FetchedMessage),
        m.message_type ≠ "user" →
        TravelDatabase.pair_messages (m :: rest) = TravelDatabase.pair_messages rest) ∧
    (∀ m : TravelDatabase.FetchedMessage, m.message_type = "user" →
        TravelDatabase.pair_messages [m]
          = [{ user_message := m.message_text, ai_response := "No response",
               created_at := m.created_at, duration := "N/A" }]) ∧
    (∀ (m m2 : TravelDatabase.FetchedMessage) (rest : List TravelDatabase.FetchedMessage),
        m.message_type = "user" → m2.message_type = "assistant" →
        TravelDatabase.pair_messages (m :: m2 :: rest)
          = { user_message := m.message_text, ai_response := m2.message_text,
              created_at := m.created_at, duration := "N/A" }
              :: TravelDatabase.pair_messages rest) ∧
    (∀ (m m2 : TravelDatabase.FetchedMessage) (rest : List TravelDatabase.FetchedMessage),
        m.message_type = "user" → m2.message_type ≠ "assistant" →
        TravelDatabase.pair_messages (m :: m2 :: rest)
          = { user_message := m.message_text, ai_response := "No response",
              created_at := m.created_at, duration := "N/A" }
              :: TravelDatabase.pair_messages (m2 :: rest)) ∧
    (∀ (msgs : List TravelDatabase.FetchedMessage) (t : TravelDatabase.ConversationTurn),
        t ∈ TravelDatabase.pair_messages msgs →
        ∃ m ∈ msgs, m.message_type = "user" ∧ t.user_message = m.message_text ∧
          t.created_at = m.created_at) := by
  refine ⟨rfl, ?_, ?_, ?_, ?_, TravelDatabase.pair_messages_user_origin⟩
  · intro m rest h
    rw [TravelDatabase.pair_messages.eq_def]
    simp [h]
  · intro m h
    simp [TravelDatabase.pair_messages, h]
  · intro m m2 rest hu ha
    simp [TravelDatabase.pair_messages, hu, ha]
  · intro m m2 rest hu ha
    simp [TravelDatabase.pair_messages, hu, ha]

/-- Witness for C1: on the log `[assistant "stray", user "hi", assistant
"hello"]` the stray leading assistant message is skipped and the remaining
pair forms the single turn `hi`/`hello`. -/
theorem spec2proof_C1_witness :
    TravelDatabase.pair_messages
        [{ message_type := "assistant", message_text := "stray", language := "en-US",
           created_at := 0 },
         { message_type := "user", message_text := "hi", language := "en-US",
           created_at := 1 },
         { message_type := "assistant", message_text := "hello", language := "en-US",
           created_at := 2 }]
      = TravelDatabase.pair_messages
        [{ message_type := "user", message_text := "hi", language := "en-US",
           created_at := 1 },
         { message_type := "assistant", message_text := "hello", language := "en-US",
           created_at := 2 }] ∧
    TravelDatabase.pair_messages
        [{ message_type := "user", message_text := "hi", language := "en-US",
           created_at := 1 },
         { message_type := "assistant", message_text := "hello", language := "en-US",
           created_at := 2 }]
      = [{ user_message := "hi", ai_response := "hello", created_at := 1,
           duration := "N/A" }] :=
  ⟨spec2proof_C1.2.1
      { message_type := "assistant", message_text := "stray", language := "en-US",
        created_at := 0 } _ (by decide),
   by decide⟩

/-- Claim C7 (amended): for every message table and every nonnegative limit,
`get_conversation_history` returns the built turn list reversed (most recent
first) and truncated to at most `limit` turns. (For a negative limit the
Python slice `conversations[:limit]` instead drops the last `|limit|` turns,
so the length bound fails there; see the counterexample.) -/
theorem spec2proof_C7 (db : List TravelDatabase.ConversationRow) (c : String)
    (limit : Int) (h : 0 ≤ limit) :
    TravelDatabase.get_conversation_history db c limit
      = ((TravelDatabase.pair_messages (TravelDatabase.fetch_messages db c)).reverse).take
          limit.toNat ∧
    ((TravelDatabase.get_conversation_history db c limit).length : Int) ≤ limit := by
  have h1 : TravelDatabase.get_conversation_history db c limit
      = ((TravelDatabase.pair_messages (TravelDatabase.fetch_messages db c)).reverse).take
          limit.toNat := by
    unfold TravelDatabase.get_conversation_history TravelDatabase.py_slice_limit
    rw [if_pos h]
  refine ⟨h1, ?_⟩
  rw [h1]
  have h2 : (((TravelDatabase.pair_messages
      (TravelDatabase.fetch_messages db c)).reverse).take limit.toNat).length
      ≤ limit.toNat := by
    rw [List.length_take]
    exact Nat.min_le_left _ _
  calc (((((TravelDatabase.pair_messages
        (TravelDatabase.fetch_messages db c)).reverse).take limit.toNat).length : Int))
      ≤ (limit.toNat : Int) := by exact_mod_cast h2
    _ = limit := Int.toNat_of_nonneg h

/-- Witness for C7: with five stored turns and limit 2, exactly the two most
recent turns are returned. -/
theorem spec2proof_C7_witness :
    TravelDatabase.get_conversation_history TravelDatabase.five_turn_db "c@x.com" 2
      = ((TravelDatabase.pair_messages
          (TravelDatabase.fetch_messages TravelDatabase.five_turn_db "c@x.com")).reverse).take
          ((2 : Int)).toNat ∧
    ((TravelDatabase.get_conversation_history
        TravelDatabase.five_turn_db "c@x.com" 2).length : Int) ≤ 2 ∧
    TravelDatabase.get_conversation_history TravelDatabase.five_turn_db "c@x.com" 2
      = [{ user_message := "u5", ai_response := "a5", created_at := 9, duration := "N/A" },
         { user_message := "u4", ai_response := "a4", created_at := 7, duration := "N/A" }] :=
  ⟨(spec2proof_C7 TravelDatabase.five_turn_db "c@x.com" 2 (by decide)).1,
   (spec2proof_C7 TravelDatabase.five_turn_db "c@x.com" 2 (by decide)).2,
   by decide⟩

/-- Counterexample to C7 as stated: the claim quantifies over every integer
limit, but with limit `-1` on a table holding two unanswered user messages
the Python slice returns one turn (all but the last), whose length is not at
most `-1`. -/
theorem spec2proof_C7_counterexample :
    TravelDatabase.get_conversation_history TravelDatabase.two_user_db "c@x.com" (-1)
      = [{ user_message := "u2", ai_response := "No response", created_at := 2,
           duration := "N/A" }] ∧
    ¬ (((TravelDatabase.get_conversation_history
        TravelDatabase.two_user_db "c@x.com" (-1)).length : Int) ≤ -1) := by
  decide

namespace TravelDatabase

theorem save_all_append (entries db : List ConversationRow) :
    save_all entries db = db ++ entries := by
  induction entries generalizing db with
  | nil => simp [save_all]
  | cons r rest ih =>
    show save_all rest
        (save_conversation r.customer_email r.session_id r.message_type r.message_text
          r.language r.created_at db) = db ++ r :: rest
    rw [show save_conversation r.customer_email r.session_id r.message_type r.message_text
        r.language r.created_at db = db ++ [r] from rfl, ih]
    simp

end TravelDatabase

/-- Claim C8: appending N messages for one customer in timestamp order via
`save_conversation` and then listing them with the query of
`get_conversation_history` returns exactly those N messages (projected to the
selected columns) in the same oldest-first order, with no loss and no
reordering. The timestamp hypothesis reflects the wall clock read by
`datetime.now()` advancing monotonically across the inserts. -/
theorem spec2proof_C8 (entries : List TravelDatabase.ConversationRow) (c : String)
    (hc : ∀ r ∈ entries, r.customer_email = c)
    (hsorted : List.Sorted
      (fun a b : TravelDatabase.ConversationRow => a.created_at ≤ b.created_at) entries) :
    TravelDatabase.fetch_messages (TravelDatabase.save_all entries []) c
      = entries.map TravelDatabase.sel_row := by
  rw [TravelDatabase.save_all_append, List.nil_append]
  unfold TravelDatabase.fetch_messages
  have hf : entries.filter (fun r => r.customer_email = c) = entries :=
    List.filter_eq_self.mpr (fun a ha => by simpa using hc a ha)
  rw [hf, List.Sorted.insertionSort_eq hsorted]
  rfl

/-- Witness for C8: two messages appended in order come back in order. -/
theorem spec2proof_C8_witness :
    TravelDatabase.fetch_messages
        (TravelDatabase.save_all
          [{ customer_email := "c@x.com", session_id := "S", message_type := "user",
             message_text := "hi", language := "en-US", created_at := 1 },
           { customer_email := "c@x.com", session_id := "S", message_type := "assistant",
             message_text := "hello", language := "en-US", created_at := 2 }] [])
        "c@x.com"
      = [{ message_type := "user", message_text := "hi", language := "en-US",
           created_at := 1 },
         { message_type := "assistant", message_text := "hello", language := "en-US",
           created_at := 2 }] := by
  have h := spec2proof_C8
    [{ customer_email := "c@x.com", session_id := "S", message_type := "user",
       message_text := "hi", language := "en-US", created_at := 1 },
     { customer_email := "c@x.com", session_id := "S", message_type := "assistant",
       message_text := "hello", language := "en-US", created_at := 2 }]
    "c@x.com" (by decide) (by decide)
  rw [h]
  rfl

namespace TravelDatabase

theorem orderedInsert_session_remap (f : ConversationRow → String) (a : ConversationRow)
    (l : List ConversationRow) :
    List.orderedInsert (fun x y : ConversationRow => x.created_at ≤ y.created_at)
        { a with session_id := f a } (l.map (fun r => { r with session_id := f r }))
      = (List.orderedInsert (fun x y : ConversationRow => x.created_at ≤ y.created_at) a
          l).map (fun r => { r with session_id := f r }) := by
  induction l with
  | nil => rfl
  | cons b t ih =>
    by_cases h : a.created_at ≤ b.created_at <;>
      simp [List.orderedInsert, h, ih]

theorem insertionSort_session_remap (f : ConversationRow → String)
    (l : List ConversationRow) :
    List.insertionSort (fun x y : ConversationRow => x.created_at ≤ y.created_at)
        (l.map (fun r => { r with session_id := f r }))
      = (List.insertionSort (fun x y : ConversationRow => x.created_at ≤ y.created_at)
          l).map (fun r => { r with session_id := f r }) := by
  induction l with
  | nil => rfl
  | cons b t ih =>
    simp only [List.map_cons, List.insertionSort, ih]
    exact orderedInsert_session_remap f b _

theorem filter_session_remap (f : ConversationRow → String) (c : String)
    (l : List ConversationRow) :
    (l.map (fun r => { r with session_id := f r })).filter
        (fun r => r.customer_email = c)
      = (l.filter (fun r => r.customer_email = c)).map
          (fun r => { r with session_id := f r }) := by
  induction l with
  | nil => rfl
  | cons b t ih =>
    by_cases h : b.customer_email = c <;>
      simp [List.filter_cons, h, ih]

end TravelDatabase

/-- Claim C9: the query of `get_conversation_history` selects rows by
`customer_email` alone and ignores `session_id` — remapping every row's
`session_id` arbitrarily leaves the fetched stream unchanged, so all sessions
of one customer are merged into a single chronological stream; concretely, a
user message from session `"A"` is paired with the assistant message from
session `"B"` that immediately follows it in timestamp order. -/
theorem spec2proof_C9 :
    (∀ (db : List TravelDatabase.ConversationRow) (c : String)
        (f : TravelDatabase.ConversationRow → String),
        TravelDatabase.fetch_messages
            (db.map (fun r => { r with session_id := f r })) c
          = TravelDatabase.fetch_messages db c) ∧
    TravelDatabase.get_conversation_history
        [{ customer_email := "c@x.com", session_id := "A", message_type := "user",
           message_text := "hi", language := "en-US", created_at := 1 },
         { customer_email := "c@x.com", session_id := "B", message_type := "assistant",
           message_text := "hello", language := "en-US", created_at := 2 }]
        "c@x.com" 50
      = [{ user_message := "hi", ai_response := "hello", created_at := 1,
           duration := "N/A" }] := by
  constructor
  · intro db c f
    unfold TravelDatabase.fetch_messages
    rw [TravelDatabase.filter_session_remap, TravelDatabase.insertionSort_session_remap,
      List.map_map]
    rfl
  · decide
